import Mathlib

/-!
Shallow embedding of the RemoteRig serial-over-UDP relay
(src/ss_server.py = Bridge, src/ss_client.py = Controller).

Each thread loop body is embedded as a pure step function over the
outcomes of its external collaborators (socket receive results, serial
read/write outcomes, queue full/empty states), returning the effects of
one iteration (datagrams sent, items enqueued, next control state).
Python exceptions that the code does not catch are returned as
`Except.error` values that propagate to the top of the thread body.
Timeout values are given in milliseconds (0.1 s = 100).
-/

set_option autoImplicit false

/-- Python exception kinds relevant to these threads. -/
inductive PyError
  | nameError
  | typeError
  | unpicklingError
deriving DecidableEq, Repr

/-- Request discriminator. In the source the requests carry the string
field rqst with values connect, disconnect and data
(ss_server.py lines 154-156); the three strings are embedded as an
enumeration. -/
inductive RqstKind
  | connect
  | disconnect
  | dataK
deriving DecidableEq, Repr

/-- One wire message: a request dict `\x7b"rqst": ..., "data": ...\x7d` or a
response `[\x7b"resp": bool, "data": ...\x7d]`. Payloads are abstracted to a
byte list; the connect configuration record is irrelevant to the claims
(only the open success/failure outcome matters) and is abstracted away. -/
inductive Msg
  | rqst (kind : RqstKind) (data : List Nat)
  | resp (hasData : Bool) (data : List Nat)
deriving DecidableEq, Repr

def kindTag : RqstKind → Nat
  | .connect => 0
  | .disconnect => 1
  | .dataK => 2

/-- Model of the external `pickle.dumps` on the messages this program
sends: an injective encoding into bytes. -/
def pickle_dumps : Msg → List Nat
  | .rqst k d => 0 :: kindTag k :: d
  | .resp b d => 1 :: (if b then 1 else 0) :: d

/-- Model of the external `pickle.loads`: a decoder that inverts
`pickle_dumps` and, as the real `pickle.loads` does on malformed input
(for example the empty byte string), fails with an unpickling error
rather than returning a value. -/
def pickle_loads : List Nat → Except PyError Msg
  | 0 :: t :: d =>
    if t = 0 then .ok (.rqst .connect d)
    else if t = 1 then .ok (.rqst .disconnect d)
    else if t = 2 then .ok (.rqst .dataK d)
    else .error .unpicklingError
  | 1 :: t :: d =>
    if t = 0 then .ok (.resp false d)
    else if t = 1 then .ok (.resp true d)
    else .error .unpicklingError
  | _ => .error .unpicklingError

/-- Outcome of one `sock.recvfrom` call: a timeout or a datagram. -/
inductive RecvEvt
  | timeout
  | datagram (bs : List Nat)
deriving DecidableEq, Repr

/-- Result of one iteration of the Bridge UDP receive loop. -/
inductive RunStep
  | continueLoop
  | dispatched (m : Msg)
  | raised (e : PyError)
deriving DecidableEq, Repr

/-- One iteration of `UDPThrd.run` in ss_server.py (lines 89-94): the
`try` wraps only `recvfrom` and catches only `socket.timeout`;
`pickle.loads(data)` is evaluated outside any handler, so a decode
failure propagates out of `run`. -/
def udp_run_step (evt : RecvEvt) : RunStep :=
  match evt with
  | .timeout => .continueLoop
  | .datagram bs =>
    match pickle_loads bs with
    | .ok m => .dispatched m
    | .error e => .raised e

/-- `UDPThrd.__process` in ss_server.py (lines 100-115), as the list of
datagrams it sends. `qFull` is whether `writer_q.put(data, timeout=0.1)`
raised `queue.Full`; in that case the method prints and returns with no
send. Otherwise it waits 0.1 s on `reader_q`; `resp` is the dequeued
item, `none` meaning `queue.Empty`; each branch performs exactly one
`sendto`. -/
def server_udp_process (qFull : Bool) (resp : Option (List Nat)) :
    List (List Nat) :=
  if qFull then []
  else
    match resp with
    | some item => [pickle_dumps (.resp true item)]
    | none => [pickle_dumps (.resp false [])]

/-- An item on the Bridge inter-thread queues: the decoded request dict. -/
structure Item where
  rqst : RqstKind
  data : List Nat
deriving DecidableEq, Repr

/-- One unit returned by `ser.read(1)` while accumulating a frame:
a single byte, the empty bytes object (read timeout with no data), or a
`SerialTimeoutException`. -/
inductive SerRead
  | rbyte (b : Nat)
  | rempty
  | rtimeout
deriving DecidableEq, Repr

/-- A frame as the code builds it: the list of results of the one-byte
reads, `some b` for a byte, `none` for the empty bytes object. -/
abbrev Frame := List (Option Nat)

/-- The accumulation loop of `SerialThrd.__read_data` in ss_server.py
(lines 261-270): append each read result; break after appending an empty
result, or on `SerialTimeoutException` without appending. `none` means
the device script was exhausted without a terminator, in which case the
loop does not terminate. -/
def read_data_go : List SerRead → Frame → Option Frame
  | [], _ => none
  | .rbyte b :: rest, acc => read_data_go rest (acc ++ [some b])
  | .rempty :: _, acc => some (acc ++ [none])
  | .rtimeout :: _, acc => some acc

/-- `SerialThrd.__read_data` in ss_server.py (lines 259-273): run the
accumulation loop, then return `data[:len(data)-1]` when the list is
nonempty, else the list itself. -/
def read_data (script : List SerRead) : Option Frame :=
  (read_data_go script []).map fun data =>
    if data.length > 0 then data.take (data.length - 1) else data

/-- Python local-variable semantics: evaluating a name whose binding is
still unassigned raises `NameError`. -/
def localLookup (v : Option Nat) : Except PyError Nat :=
  match v with
  | some n => .ok n
  | none => .error .nameError

/-- Outcome of the underlying serial write call(s) in a write routine:
all calls returned (with `n` bytes reported written in total), or a call
raised `SerialTimeoutException`. -/
inductive WriteEvt
  | written (n : Nat)
  | wtimeout
deriving DecidableEq, Repr

/-- `SerialThrd.__write_data` in ss_server.py (lines 241-255). The only
assignment to the local `bytes_written` is the result of `ser.write`;
when that call raises, the handler evaluates `bytes_written` in the
`print` call while it is still unassigned, so the handler itself raises
`NameError` and the `return False` below it is unreachable. On normal
return the routine compares `bytes_written` with `len(data)`. -/
def server_write_data (dataLen : Nat) (evt : WriteEvt) :
    Except PyError Bool :=
  match evt with
  | .written n => if n = dataLen then .ok true else .ok false
  | .wtimeout =>
    match localLookup none with
    | .ok _ => .ok false
    | .error e => .error e

/-- `SerialThrd.__write_data` in ss_client.py (lines 281-292): writes
each element in a loop and returns True; the handler for
`SerialTimeoutException` evaluates `bytes_written`, a name that is never
assigned anywhere in this routine, so the handler raises `NameError`. -/
def client_write_data (evt : WriteEvt) : Except PyError Bool :=
  match evt with
  | .written _ => .ok true
  | .wtimeout =>
    match localLookup none with
    | .ok _ => .ok false
    | .error e => .error e

/-- Python call-arity semantics for a function declared with zero
parameters: passing any argument raises `TypeError` before the body
runs. -/
def pyCall0 (nargs : Nat) (body : Unit → Except PyError Bool) :
    Except PyError Bool :=
  if nargs = 0 then body () else .error .typeError

/-- `SerialThrd.__do_disconnect` in ss_server.py (lines 234-237) is
declared `def __do_disconnect():` with no `self` parameter; the call
`self.__do_disconnect()` in `run` passes the instance as one positional
argument, so the call raises `TypeError` and the body (close the port,
return True) never runs. -/
def do_disconnect : Except PyError Bool :=
  pyCall0 1 fun _ => .ok true

/-- Environment of one iteration of the Bridge Active loop
(`SerialThrd.run`, ss_server.py lines 181-204): the `reader_q.get`
outcome (`none` = `queue.Empty`), the serial write outcome used when the
item is a data request, the device read script used after a successful
write, and whether `writer_q` is full when `__dispatch_data` runs. -/
structure ActiveEnv where
  deq : Option Item
  writeEvt : WriteEvt
  readScript : List SerRead
  dispFull : Bool
deriving DecidableEq, Repr

/-- Control outcome of one Active-loop iteration: continue the loop,
break back to the outer connect-wait loop, or return from `run`. -/
inductive ActiveOutcome
  | stayActive
  | toIdle
  | exitThread
deriving DecidableEq, Repr

/-- One iteration of the Bridge Active loop (ss_server.py lines
181-204), returning the control outcome and the frames enqueued on the
outbound queue. The `try` there catches only `queue.Empty`, so a Python
error raised by `__do_disconnect` or `__write_data` propagates out of
`run` (`Except.error`). A disconnect item breaks to the outer loop on
True and returns on False; a data item writes, and on write success
reads one frame and dispatches it only when nonempty (`__dispatch_data`
drops it with a report when the queue is full); on write failure the
code prints and continues. An item of any other kind matches no branch
and the loop continues. `none` means the iteration does not complete
(the device read never hit a terminator). -/
def active_step (env : ActiveEnv) :
    Option (Except PyError (ActiveOutcome × List Frame)) :=
  match env.deq with
  | none => some (.ok (.stayActive, []))
  | some item =>
    match item.rqst with
    | .disconnect =>
      match do_disconnect with
      | .error e => some (.error e)
      | .ok true => some (.ok (.toIdle, []))
      | .ok false => some (.ok (.exitThread, []))
    | .dataK =>
      match server_write_data item.data.length env.writeEvt with
      | .error e => some (.error e)
      | .ok true =>
        match read_data env.readScript with
        | some frame =>
          some (.ok (.stayActive,
            if frame.length > 0 then
              (if env.dispFull then [] else [frame])
            else []))
        | none => none
      | .ok false => some (.ok (.stayActive, []))
    | .connect => some (.ok (.stayActive, []))

/-- Control outcome of one iteration of the Bridge connect-wait loop. -/
inductive WaitOutcome
  | exitThread
  | connected
  | keepWaiting
deriving DecidableEq, Repr

/-- One iteration of the Bridge connect-wait loop (ss_server.py lines
163-178): return when terminating; on `queue.Empty` keep waiting; on a
connect item attempt `__do_connect` and break into Active on success,
print and return from `run` on failure; any other item keeps waiting.
`connOk` is the outcome of the attempt to open the serial device. -/
def connect_wait_step (term : Bool) (deq : Option Item) (connOk : Bool) :
    WaitOutcome :=
  if term then .exitThread
  else
    match deq with
    | none => .keepWaiting
    | some item =>
      match item.rqst with
      | .connect => if connOk then .connected else .exitThread
      | _ => .keepWaiting

/-- Effects of one call of the Controller `UDPThrd.__process`: datagrams
sent on the socket, items put on the queue toward the serial thread, and
whether `recvfrom` was invoked at all during the call. -/
structure ProcEffects where
  sent : List (List Nat)
  enqueued : List (List (List Nat))
  receivedFromNet : Bool
deriving DecidableEq, Repr

/-- `UDPThrd.__process` in ss_client.py (lines 120-158). `deq` is the
`reader_q.get(timeout=0.1)` outcome (`none` = `queue.Empty`, early
return); `sendOk` is whether the `sendto` of the data request succeeded
(its handler prints and returns). After the send the code assigns
`l = [0x01,0x42,0x34,0x56,0x01]`, calls `writer_q.put([l])` — a put with
no timeout, which blocks for ever on a full queue (`qFull`, result
`none`) — and then executes `return`, so the receive-and-dispatch code
at lines 143-158 (`recvfrom`, `pickle.loads`, enqueue of the response
payload) is unreachable. -/
def client_udp_process (deq : Option (List Nat)) (sendOk : Bool)
    (qFull : Bool) : Option ProcEffects :=
  match deq with
  | none => some ⟨[], [], false⟩
  | some d =>
    if sendOk then
      if qFull then none
      else some ⟨[pickle_dumps (.rqst .dataK d)],
                 [[[0x01, 0x42, 0x34, 0x56, 0x01]]], false⟩
    else some ⟨[], [], false⟩

/-- Result of one `queue.Queue.put` call. -/
inductive PutResult
  | enqueued
  | fullReported
  | blocked
deriving DecidableEq, Repr

/-- Semantics of `queue.Queue.put(item, timeout=t)` on a bounded queue:
with room the item is enqueued; on a full queue a call with a timeout
raises `queue.Full` after the bound (a reported condition), while a call
with no timeout argument blocks until room appears, i.e. indefinitely
when the consumer is not draining. -/
def queue_put (full : Bool) (timeout_ms : Option Nat) : PutResult :=
  if full then
    match timeout_ms with
    | some _ => .fullReported
    | none => .blocked
  else .enqueued

/-- Result of one `queue.Queue.get` call. -/
inductive GetResult
  | gotItem
  | emptyReported
  | getBlocked
deriving DecidableEq, Repr

/-- Semantics of `queue.Queue.get(timeout=t)` on a bounded queue: with
an item available it is returned; on an empty queue a call with a
timeout raises `queue.Empty` after the bound, a call with no timeout
blocks. -/
def queue_get (empty : Bool) (timeout_ms : Option Nat) : GetResult :=
  if empty then
    match timeout_ms with
    | some _ => .emptyReported
    | none => .getBlocked
  else .gotItem

/-- The reachable `put` call sites on the inter-thread queues of the two
peers. -/
inductive PutSite
  | serverUdpProcess
  | serverSerialDispatch
  | clientUdpProcess
  | clientSerialDispatch
deriving DecidableEq, Repr

/-- The timeout argument each `put` site passes: ss_server.py line 105
and line 280 and ss_client.py line 347 pass `timeout=0.1`; ss_client.py
line 140 (`self.__writer_q.put([l])` in `UDPThrd.__process`) passes no
timeout. -/
def put_site_timeout : PutSite → Option Nat
  | .serverUdpProcess => some 100
  | .serverSerialDispatch => some 100
  | .clientUdpProcess => none
  | .clientSerialDispatch => some 100

/-- The reachable `get` call sites on the inter-thread queues of the two
peers. -/
inductive GetSite
  | serverUdpWaitResp
  | serverSerialConnectWait
  | serverSerialActive
  | clientUdpProcess
  | clientSerialResponse
deriving DecidableEq, Repr

/-- The timeout argument each `get` site passes: ss_server.py lines 112,
168, 186 pass 0.1, 1.0, 0.1 seconds; ss_client.py lines 126 and 358 pass
0.1 seconds. -/
def get_site_timeout : GetSite → Option Nat
  | .serverUdpWaitResp => some 100
  | .serverSerialConnectWait => some 1000
  | .serverSerialActive => some 100
  | .clientUdpProcess => some 100
  | .clientSerialResponse => some 100

/-! Helper lemmas. -/

theorem pickle_roundtrip (m : Msg) : pickle_loads (pickle_dumps m) = .ok m := by
  cases m with
  | rqst k d => cases k <;> simp [pickle_dumps, pickle_loads, kindTag]
  | resp b d => cases b <;> simp [pickle_dumps, pickle_loads]

theorem read_data_go_rempty (B : List Nat) (acc : Frame) :
    read_data_go (B.map SerRead.rbyte ++ [SerRead.rempty]) acc =
      some (acc ++ B.map some ++ [none]) := by
  induction B generalizing acc with
  | nil => simp [read_data_go]
  | cons b bs ih => simp [read_data_go, ih, List.append_assoc]

theorem read_data_go_rtimeout (B : List Nat) (acc : Frame) :
    read_data_go (B.map SerRead.rbyte ++ [SerRead.rtimeout]) acc =
      some (acc ++ B.map some) := by
  induction B generalizing acc with
  | nil => simp [read_data_go]
  | cons b bs ih => simp [read_data_go, ih, List.append_assoc]

/-! Claim theorems. -/

/-- Claim C1 (code evidence): the Controller UDP processing step never
reaches its receive-and-dispatch code. Every completed call of
`__process` reports `receivedFromNet = false`, and on a dequeued payload
with a successful send the step enqueues the hardcoded list
`[[0x01,0x42,0x34,0x56,0x01]]` toward the serial side and returns,
instead of receiving and dispatching the peer response. -/
theorem C1_response_path_unreachable (deq : Option (List Nat))
    (sendOk qFull : Bool) (eff : ProcEffects)
    (h : client_udp_process deq sendOk qFull = some eff) :
    eff.receivedFromNet = false ∧
    client_udp_process (some [1]) true false =
      some ⟨[pickle_dumps (Msg.rqst RqstKind.dataK [1])],
            [[[0x01, 0x42, 0x34, 0x56, 0x01]]], false⟩ := by
  refine ⟨?_, by decide⟩
  cases deq with
  | none =>
    simp [client_udp_process] at h
    simp [← h]
  | some d =>
    cases sendOk <;> cases qFull <;>
      simp [client_udp_process] at h <;> simp [← h]

/-- Witness for `C1_response_path_unreachable` at a concrete input. -/
theorem C1_response_path_unreachable_witness :
    ProcEffects.receivedFromNet
        ⟨[pickle_dumps (Msg.rqst RqstKind.dataK [1])],
         [[[0x01, 0x42, 0x34, 0x56, 0x01]]], false⟩ = false ∧
    client_udp_process (some [1]) true false =
      some ⟨[pickle_dumps (Msg.rqst RqstKind.dataK [1])],
            [[[0x01, 0x42, 0x34, 0x56, 0x01]]], false⟩ :=
  C1_response_path_unreachable (some [1]) true false
    ⟨[pickle_dumps (Msg.rqst RqstKind.dataK [1])],
     [[[0x01, 0x42, 0x34, 0x56, 0x01]]], false⟩ (by decide)

/-- Claim C2 counterexample: when the inbound queue is full at enqueue
time, the Bridge network thread sends zero acknowledgement datagrams,
not exactly one. -/
theorem C2_counterexample :
    server_udp_process true none = [] ∧
    (server_udp_process true none).length ≠ 1 := by decide

/-- Claim C2 (amended): when the enqueue onto the inbound queue
succeeds, the Bridge sends exactly one acknowledgement (data or no
data); when the inbound queue is full the request is dropped with a
report and no acknowledgement is sent. -/
theorem C2_ack_count (resp : Option (List Nat)) :
    (server_udp_process false resp).length = 1 ∧
    (server_udp_process true resp).length = 0 := by
  cases resp <;> simp [server_udp_process]

/-- Claim C3 counterexample: the empty byte string is undecodable, and
the Bridge receive step raises on it instead of behaving as a timeout. -/
theorem C3_counterexample :
    udp_run_step (.datagram []) = .raised .unpicklingError ∧
    udp_run_step (.datagram []) ≠ .continueLoop := by decide

/-- Claim C3 (amended): the Bridge receive loop catches only the socket
timeout; a datagram whose payload fails to decode makes the decode error
propagate out of the loop (the step is not treated as a timeout), while
a well-formed datagram is dispatched. -/
theorem C3_receive_step (bs : List Nat) (e : PyError) (m : Msg)
    (h : pickle_loads bs = .error e) :
    udp_run_step (.datagram bs) = .raised e ∧
    udp_run_step (.datagram bs) ≠ .continueLoop ∧
    udp_run_step .timeout = .continueLoop ∧
    udp_run_step (.datagram (pickle_dumps m)) = .dispatched m := by
  refine ⟨by simp [udp_run_step, h], by simp [udp_run_step, h], rfl,
    by simp [udp_run_step, pickle_roundtrip]⟩

/-- Witness for `C3_receive_step` at a concrete undecodable payload. -/
theorem C3_receive_step_witness :
    udp_run_step (.datagram [2, 9]) = .raised .unpicklingError ∧
    udp_run_step (.datagram [2, 9]) ≠ .continueLoop ∧
    udp_run_step .timeout = .continueLoop ∧
    udp_run_step (.datagram (pickle_dumps (.resp false []))) =
      .dispatched (.resp false []) :=
  C3_receive_step [2, 9] .unpicklingError (.resp false []) rfl

/-- Claim C4 counterexample: a data item whose write reports failure
(1 byte accepted of 2 requested) leaves the Active loop in Active with
nothing enqueued; it does not force a disconnect or stop the thread. -/
theorem C4_counterexample :
    active_step ⟨some ⟨.dataK, [1, 2]⟩, .written 1, [], false⟩ =
      some (.ok (.stayActive, [])) ∧
    ActiveOutcome.stayActive ≠ ActiveOutcome.toIdle ∧
    ActiveOutcome.stayActive ≠ ActiveOutcome.exitThread :=
  ⟨rfl, by decide, by decide⟩

/-- Claim C4 (amended): whenever the write step reports failure (fewer
bytes accepted than requested), the Bridge prints and continues in
Active, processing subsequent requests; no transition out of Active
occurs and nothing is enqueued for that request. -/
theorem C4_write_fault_continues (payload : List Nat) (n : Nat)
    (script : List SerRead) (dispFull : Bool)
    (h : n ≠ payload.length) :
    active_step ⟨some ⟨.dataK, payload⟩, .written n, script, dispFull⟩ =
      some (.ok (.stayActive, [])) := by
  simp [active_step, server_write_data, h]

/-- Witness for `C4_write_fault_continues` at a concrete short write. -/
theorem C4_write_fault_continues_witness :
    (3 : Nat) ≠ ([5, 6] : List Nat).length ∧
    active_step ⟨some ⟨.dataK, [5, 6]⟩, .written 3, [.rempty], true⟩ =
      some (.ok (.stayActive, [])) :=
  ⟨by decide, C4_write_fault_continues [5, 6] 3 [.rempty] true (by decide)⟩

/-- Claim C5 counterexample: with the terminate flag clear, a connect
item whose device open fails makes the connect-wait loop return from
`run` (the serial thread exits for good); it does not keep waiting for a
further Connect Request. -/
theorem C5_counterexample :
    connect_wait_step false (some ⟨.connect, []⟩) false = .exitThread ∧
    WaitOutcome.exitThread ≠ WaitOutcome.keepWaiting := by decide

/-- Claim C5 (amended): when the attempt to open the serial device on a
Connect Request fails, the Bridge serial thread prints an error and
returns from `run`, a terminal outcome; the session never resumes
waiting for a subsequent Connect Request. -/
theorem C5_connect_failure_exits (payload : List Nat) :
    connect_wait_step false (some ⟨.connect, payload⟩) false =
      .exitThread := by
  simp [connect_wait_step]

/-- Claim C6 (code evidence): `__do_disconnect` is declared without the
`self` parameter, so the call raises `TypeError`; a Disconnect Request
while Active therefore crashes the serial thread instead of releasing
the device and returning to Idle. -/
theorem C6_disconnect_raises :
    do_disconnect = .error .typeError ∧
    active_step ⟨some ⟨.disconnect, []⟩, .written 0, [], false⟩ =
      some (.error .typeError) := by
  exact ⟨rfl, rfl⟩

/-- Claim C7 counterexample: a device that presents the single byte 170
and then signals end of data with the timeout exception makes
`__read_data` return the empty list, dropping the byte instead of
returning the one-byte frame. -/
theorem C7_counterexample :
    read_data [.rbyte 170, .rtimeout] = some [] ∧
    (some [] : Option Frame) ≠ some [some 170] := by decide

/-- Claim C7 (amended): when the zero-byte read is reported as an empty
result, `__read_data` returns exactly the bytes of B in order; when the
end of data is reported as a timeout exception, the unconditional
sentinel strip `data[:len(data)-1]` removes the last byte of B (the
result is B with its final byte dropped, empty when B is empty). -/
theorem C7_frame_roundtrip (B : List Nat) :
    read_data (B.map SerRead.rbyte ++ [SerRead.rempty]) =
      some (B.map some) ∧
    read_data (B.map SerRead.rbyte ++ [SerRead.rtimeout]) =
      some ((B.map some).take (B.length - 1)) := by
  constructor
  · simp [read_data, read_data_go_rempty B []]
  · simp [read_data, read_data_go_rtimeout B []]
    intro h
    subst h
    simp

/-- Claim C8: an idle window yielding zero payload bytes makes
`__read_data` return the empty result under either termination mode,
and the Active loop enqueues nothing on the from-device queue for that
window. -/
theorem C8_empty_idle_window (payload : List Nat) (dispFull : Bool) :
    read_data [SerRead.rempty] = some [] ∧
    read_data [SerRead.rtimeout] = some [] ∧
    active_step ⟨some ⟨.dataK, payload⟩, .written payload.length,
      [SerRead.rempty], dispFull⟩ = some (.ok (.stayActive, [])) := by
  refine ⟨by decide, by decide, ?_⟩
  simp [active_step, server_write_data, read_data, read_data_go]

/-- Claim C9 counterexample: the Controller UDP thread `put` site passes
no timeout, so on a full queue the call blocks indefinitely instead of
reporting a full condition. -/
theorem C9_counterexample :
    queue_put true (put_site_timeout .clientUdpProcess) = .blocked ∧
    PutResult.blocked ≠ PutResult.fullReported := by decide

/-- Claim C9 (amended): every enqueue site except the Controller UDP
thread site passes a 0.1 s timeout and reports the full condition within
that bound; the Controller UDP thread site blocks indefinitely on a full
queue; every dequeue site passes a bounded timeout and reports empty
after it elapses. -/
theorem C9_bounded_queue_ops (s : PutSite) (g : GetSite)
    (h : s ≠ PutSite.clientUdpProcess) :
    queue_put true (put_site_timeout s) = .fullReported ∧
    queue_get true (get_site_timeout g) = .emptyReported := by
  cases s <;> cases g <;>
    simp_all [queue_put, queue_get, put_site_timeout, get_site_timeout]

/-- Witness for `C9_bounded_queue_ops` at concrete sites. -/
theorem C9_bounded_queue_ops_witness :
    queue_put true (put_site_timeout .serverUdpProcess) = .fullReported ∧
    queue_get true (get_site_timeout .serverSerialConnectWait) =
      .emptyReported :=
  C9_bounded_queue_ops .serverUdpProcess .serverSerialConnectWait
    (by decide)

/-- Claim C10: in both peers, when the underlying serial write raises
the write-timeout exception, the handler evaluates the unassigned local
`bytes_written` and itself raises `NameError`; the error branch never
returns False. -/
theorem C10_write_timeout_name_error (dataLen : Nat) :
    server_write_data dataLen .wtimeout = .error .nameError ∧
    client_write_data .wtimeout = .error .nameError ∧
    server_write_data dataLen .wtimeout ≠ .ok false ∧
    client_write_data .wtimeout ≠ .ok false := by
  refine ⟨rfl, rfl, fun h => ?_, fun h => ?_⟩ <;>
    simp [server_write_data, client_write_data, localLookup] at h
